import Mathlib

/-!
Verification development for the trivia-agent repository.

The Python sources under `src/trivia_agent/` are shallowly embedded as Lean
definitions: pure functions become Lean functions, the filesystem side effect
of the settings loader is recorded as an explicit list of created directories,
the polling wait loops of `dispatch.py` become step-indexed functions over an
oracle for the clock and the reply channel, and the process random source is
an explicit natural-number oracle.  Strings are Lean `String`s; the Python
string primitives used by the code (`in`, `str.lower()`, `str.split()`,
`int()`) are modelled by executable helpers defined below.
-/

namespace TriviaAgent

/-! ## Python string primitives -/

/-- Holds when the character list `n` is an initial segment of `h`
(helper for modelling Python substring containment). -/
def listStartsWith : List Char → List Char → Bool
  | [], _ => true
  | _ :: _, [] => false
  | a :: as, b :: bs => a == b && listStartsWith as bs

/-- Models Python `needle in hay` on character lists: `needle` occurs as a
contiguous sublist of `hay`. -/
def listContainsSub (hay needle : List Char) : Bool :=
  match hay with
  | [] => listStartsWith needle []
  | c :: t => listStartsWith needle (c :: t) || listContainsSub t needle

/-- Models Python `str.lower()` (ASCII case folding, which is everything
the fixed category keys and answers of the repository need). -/
def pyLower (s : String) : String := ⟨s.data.map Char.toLower⟩

/-- Models Python `a in b` for strings. -/
def pyContains (hay needle : String) : Bool := listContainsSub hay.data needle.data

/-- Models Python `str.split()` with no separator: split on runs of
whitespace, discarding empty fields. -/
def pySplitWhitespace (s : String) : List (List Char) :=
  (s.data.splitOnP Char.isWhitespace).filter (fun w => !w.isEmpty)

/-- Models Python `int()` applied to a (real-valued) duration: truncation
toward zero. -/
def pyInt (x : ℚ) : ℤ := if 0 ≤ x then ⌊x⌋ else ⌈x⌉

/-- Models Python truthiness of an optional string (`if not url:`):
falsy when absent or empty. -/
def pyTruthy (s : Option String) : Bool :=
  match s with
  | none => false
  | some t => !(t == "")

theorem listStartsWith_iff (n h : List Char) :
    listStartsWith n h = true ↔ ∃ t, h = n ++ t := by
  induction n generalizing h with
  | nil => simp [listStartsWith]
  | cons a as ih =>
    cases h with
    | nil => simp [listStartsWith]
    | cons b bs =>
      simp only [listStartsWith, Bool.and_eq_true, beq_iff_eq, ih, List.cons_append,
        List.cons.injEq]
      constructor
      · rintro ⟨hab, t, ht⟩
        exact ⟨t, hab.symm, ht⟩
      · rintro ⟨t, hba, ht⟩
        exact ⟨hba.symm, t, ht⟩

/-- `listContainsSub` agrees with the mathematical notion of substring:
some decomposition `hay = s ++ needle ++ t` exists. -/
theorem listContainsSub_iff (h n : List Char) :
    listContainsSub h n = true ↔ ∃ s t, h = s ++ n ++ t := by
  induction h with
  | nil =>
    simp only [listContainsSub, listStartsWith_iff]
    constructor
    · rintro ⟨t, ht⟩
      exact ⟨[], t, by simpa using ht⟩
    · rintro ⟨s, t, hst⟩
      refine ⟨t, ?_⟩
      rcases List.append_eq_nil.mp (List.append_eq_nil.mp hst.symm).1 with ⟨hs, hn⟩
      simp [hn, (List.append_eq_nil.mp hst.symm).2]
  | cons c cs ih =>
    simp only [listContainsSub, Bool.or_eq_true, listStartsWith_iff, ih]
    constructor
    · rintro (⟨t, ht⟩ | ⟨s, t, hst⟩)
      · exact ⟨[], t, by simpa using ht⟩
      · exact ⟨c :: s, t, by simp [hst]⟩
    · rintro ⟨s, t, hst⟩
      cases s with
      | nil => exact Or.inl ⟨t, by simpa using hst⟩
      | cons d ds =>
        right
        refine ⟨ds, t, ?_⟩
        have h2 : c :: cs = d :: (ds ++ n ++ t) := by simpa using hst
        simpa using (List.cons_eq_cons.mp h2).2

/-! ## `config.py` — settings loader -/

/-- Embeds `RedisSettings` from `config.py`.  Directory paths are modelled as
resolved path strings. -/
structure RedisSettings where
  url : String
  requests_queue : String
  eval_requests_queue : String
  debug_bundles_dir : Option String
  prompt_overrides_dir : Option String
deriving DecidableEq

/-- Return value of the embedded settings loader: the `(settings, error)`
result pair of the Python function, together with the list of directories on
which `mkdir(parents=True, exist_ok=True)` was invoked, in call order —
the only filesystem side effect of the loader, made explicit. -/
structure ConfigResult where
  settings : Option RedisSettings
  error : Option String
  mkdirs : List String
deriving DecidableEq

/-- Embeds `load_redis_settings` from `config.py`.  `env` is the environment
mapping; `resolve` is an oracle for `Path(...).resolve()` (absolute-path
resolution depends on the process working directory, so it is a parameter).
The function is total: it never raises. -/
def load_redis_settings (resolve : String → String) (env : String → Option String) :
    ConfigResult :=
  let url := env "REDIS_URL"
  if !(pyTruthy url) then
    { settings := none, error := some "REDIS_URL environment variable is required",
      mkdirs := [] }
  else
    let requests_queue := (env "TRIVIA_REQUESTS_QUEUE").getD "trivia:requests"
    let eval_requests_queue :=
      (env "TRIVIA_EVAL_REQUESTS_QUEUE").getD "trivia:eval:requests"
    let debug_bundles_str := env "TRIVIA_DEBUG_BUNDLES_DIR"
    let debug_bundles_dir : Option String :=
      if pyTruthy debug_bundles_str then some (resolve (debug_bundles_str.getD ""))
      else none
    let prompt_overrides_str := env "TRIVIA_PROMPT_OVERRIDES_DIR"
    let prompt_overrides_dir : Option String :=
      if pyTruthy prompt_overrides_str then some (resolve (prompt_overrides_str.getD ""))
      else none
    { settings := some
        { url := url.getD ""
          requests_queue := requests_queue
          eval_requests_queue := eval_requests_queue
          debug_bundles_dir := debug_bundles_dir
          prompt_overrides_dir := prompt_overrides_dir }
      error := none
      mkdirs := debug_bundles_dir.toList ++ prompt_overrides_dir.toList }

/-! ## `tools.py` — tool handlers -/

/-- Embeds `HintLookupResult` from `tools.py`. -/
structure HintLookupResult where
  found : Bool
  hint : String
deriving DecidableEq

/-- The fixed category-to-hint mapping of `_handle_hint_lookup`, in the
insertion (iteration) order of the Python dict literal. -/
def hints : List (String × String) :=
  [("number", "Think of the answer to life, the universe, and everything."),
   ("word", "It\x27s a yellow fruit that monkeys love."),
   ("color", "Mix red and blue together."),
   ("phrase", "Ali Baba said this to enter the cave of treasures.")]

/-- Embeds `_handle_hint_lookup` from `tools.py`: lowercase the requested
category, scan the hint mapping in order for a key occurring as a substring,
and return the result record together with the `ToolResult.ok` message.
Total — the handler never errors. -/
def _handle_hint_lookup (category : String) : HintLookupResult × String :=
  let category_lower := pyLower category
  match hints.find? (fun kv => listContainsSub category_lower.data kv.1.data) with
  | some kv =>
      ({ found := true, hint := kv.2 }, "Found hint for " ++ kv.1 ++ " category.")
  | none =>
      ({ found := false, hint := "" }, "No hint available for this category.")

/-- Embeds `ThrowDiceResult` from `tools.py`. -/
structure ThrowDiceResult where
  value : ℤ
deriving DecidableEq

/-- Models Python `random.randint(a, b)`: an arbitrary draw `r` from the
entropy source, reduced into the inclusive range `[a, b]`. -/
def pyRandint (a b : ℤ) (r : ℕ) : ℤ := a + ((r % (b - a + 1).toNat : ℕ) : ℤ)

/-- Embeds `_handle_throw_dice` from `tools.py`: `random.randint(1, 6)`
wrapped in a result record plus the `ToolResult.ok` message.  `r` is the
outcome of the process random source.  Total — the handler never errors. -/
def _handle_throw_dice (r : ℕ) : ThrowDiceResult × String :=
  let value := pyRandint 1 6 r
  ({ value := value }, "Dice thrown: " ++ toString value)

/-! ## `models.py` and `evaluators.py` -/

/-- Embeds `TriviaResponse` from `models.py` (single answer field). -/
structure TriviaResponse where
  answer : String
deriving DecidableEq

/-- Embeds `weakincentives.evals.Score` as used by `evaluators.py` and
`dispatch.py`.  Python float scores are modelled exactly as rationals. -/
structure Score where
  value : ℚ
  passed : Bool
  reason : String
deriving DecidableEq

/-- Embeds `trivia_evaluator` from `evaluators.py`: a correctness criterion
(case-insensitive substring containment of the expected secret) averaged with
a brevity criterion keyed on the whitespace-separated word count, passing when
the average reaches 0.6 and the secret was found. -/
def trivia_evaluator (output : TriviaResponse) (expected : String) : Score :=
  let check1 : ℚ × String :=
    if pyContains (pyLower output.answer) (pyLower expected) then
      (1, "Correct! Secret \x27" ++ expected ++ "\x27 found")
    else
      (0, "Wrong! Expected secret \x27" ++ expected ++ "\x27 not in answer")
  let word_count : ℕ := (pySplitWhitespace output.answer).length
  let check2 : ℚ × String :=
    if word_count ≤ 20 then (1, "Perfect brevity (" ++ toString word_count ++ " words)")
    else if word_count ≤ 50 then
      (7/10, "Acceptable length (" ++ toString word_count ++ " words)")
    else (3/10, "Too verbose for trivia (" ++ toString word_count ++ " words)")
  let scores : List (ℚ × String) := [check1, check2]
  let total_value : ℚ := (scores.map (fun s => s.1)).sum / (scores.length : ℚ)
  let reasons := scores.map (fun s => s.2)
  let passed : Bool := decide ((6/10 : ℚ) ≤ total_value) && decide ((0 : ℚ) < check1.1)
  { value := total_value, passed := passed, reason := String.intercalate "; " reasons }

/-! ## `dispatch.py` — reply-correlation wait loops and CLI exit codes -/

/-- Embeds `MainLoopResult[TriviaResponse]` (aliased `AgentLoopResult`) as
received by `_wait_for_response`.  The UUID `request_id` is modelled by its
string form (the code compares `str(result.request_id)`). -/
structure AgentLoopResult where
  request_id : String
  output : Option TriviaResponse
  error : Option String
deriving DecidableEq

/-- Embeds `weakincentives.evals.EvalResult` as received by
`_wait_for_eval_result` and inspected by `main`. -/
structure EvalResult where
  sample_id : String
  error : Option String
  score : Score
  latency_ms : ℕ
  bundle_path : Option String
deriving DecidableEq

/-- Embeds the per-iteration blocking budget computed by both wait loops:
`wait_time = min(wait_time_seconds, max(0, int(remaining)))`. -/
def wait_time (wait_time_seconds : ℤ) (remaining : ℚ) : ℤ :=
  min wait_time_seconds (max 0 (pyInt remaining))

/-- What the wait-loop contract of the spec says the blocking budget is:
`min(wait_time_seconds, remaining)` over exact (real-valued) time. -/
def spec_blocking_budget (wait_time_seconds : ℤ) (remaining : ℚ) : ℚ :=
  min (wait_time_seconds : ℚ) remaining

/-- Outcome of one poll of the reply channel inside a wait-loop iteration. -/
inductive PollOutcome (α : Type) where
  | empty : PollOutcome α
  | nack (visibility_timeout : ℕ) (m : α) : PollOutcome α
  | ret (m : α) : PollOutcome α
deriving DecidableEq

/-- One iteration of a wait loop: either the deadline check fires, or the
channel is polled with some blocking budget and the message (if any) is
acknowledged and returned, or negative-acknowledged on identifier mismatch. -/
inductive LoopStep (α : Type) where
  | timedOut : LoopStep α
  | polled (budget : ℤ) (outcome : PollOutcome α) : LoopStep α
deriving DecidableEq

/-- Embeds a single iteration of the wait-loop body shared by
`_wait_for_response` and `_wait_for_eval_result` (they differ only in the
correlation-key extractor `idOf`).  `times k` is the value `now()` returns at
the top of iteration `k`; `recv k` is the at-most-one message
`receive(max_messages=1, wait_time_seconds=...)` yields at iteration `k`.
A mismatched message is negative-acknowledged with `visibility_timeout=0`
(`ReceiptHandleExpiredError` is suppressed in the source, so the nack is
unconditional as seen from the loop). -/
def waitStep {α : Type} (idOf : α → String) (expected : String) (deadline : ℚ)
    (times : ℕ → ℚ) (recv : ℕ → Option α) (wait_time_seconds : ℤ) (k : ℕ) :
    LoopStep α :=
  let remaining := deadline - times k
  if remaining ≤ 0 then .timedOut
  else
    .polled (wait_time wait_time_seconds remaining)
      (match recv k with
       | none => .empty
       | some m => if idOf m = expected then .ret m else .nack 0 m)

/-- Step-indexed embedding of the `while True` of the wait loop: `fuel` bounds the
number of iterations examined, `k` is the current iteration index.  `none`
means the loop is still running after `fuel` iterations; `some none` means the
loop returned `None` (timeout); `some (some m)` means it returned message
body `m`. -/
def waitLoop {α : Type} (idOf : α → String) (expected : String) (deadline : ℚ)
    (times : ℕ → ℚ) (recv : ℕ → Option α) (wait_time_seconds : ℤ) (k : ℕ) :
    ℕ → Option (Option α)
  | 0 => none
  | fuel + 1 =>
    match waitStep idOf expected deadline times recv wait_time_seconds k with
    | .timedOut => some none
    | .polled _ PollOutcome.empty =>
        waitLoop idOf expected deadline times recv wait_time_seconds (k + 1) fuel
    | .polled _ (PollOutcome.nack _ _) =>
        waitLoop idOf expected deadline times recv wait_time_seconds (k + 1) fuel
    | .polled _ (PollOutcome.ret m) => some (some m)

/-- Embeds `_wait_for_response` from `dispatch.py`: correlate on
`request_id`.  `nows j` is the value of the `j`-th call to `now()` (the 0-th
sets the deadline, call `k + 1` opens iteration `k`). -/
def _wait_for_response (request_id : String) (timeout_seconds : ℚ)
    (wait_time_seconds : ℤ) (nows : ℕ → ℚ) (recv : ℕ → Option AgentLoopResult)
    (fuel : ℕ) : Option (Option AgentLoopResult) :=
  waitLoop (fun r => r.request_id) request_id (nows 0 + timeout_seconds)
    (fun k => nows (k + 1)) recv wait_time_seconds 0 fuel

/-- Embeds `_wait_for_eval_result` from `dispatch.py`: identical loop,
correlating on `sample_id`. -/
def _wait_for_eval_result (sample_id : String) (timeout_seconds : ℚ)
    (wait_time_seconds : ℤ) (nows : ℕ → ℚ) (recv : ℕ → Option EvalResult)
    (fuel : ℕ) : Option (Option EvalResult) :=
  waitLoop (fun r => r.sample_id) sample_id (nows 0 + timeout_seconds)
    (fun k => nows (k + 1)) recv wait_time_seconds 0 fuel

/-- Embeds the exit-code decision of the eval-with-wait branch of `main`
(`dispatch.py` lines 381-399) applied to the value `_wait_for_eval_result`
returned: timeout gives 1, an error on the result gives 1, otherwise the code
is 0 exactly for a passing score. -/
def eval_result_exit_code (result : Option EvalResult) : ℤ :=
  match result with
  | none => 1
  | some r =>
    match r.error with
    | some _ => 1
    | none => if r.score.passed then 0 else 1

/-- Embeds the status line `main` prints for a displayed eval result:
`f"Status: {status}"` with `status = "PASSED" if result.score.passed else
"FAILED"`. -/
def eval_status_line (r : EvalResult) : String :=
  "Status: " ++ (if r.score.passed then "PASSED" else "FAILED")

/-! ## Helper lemmas about the wait loops -/

/-- A `ret` step can only arise from a received message whose correlation
identifier equals the expected one. -/
theorem waitStep_ret {α : Type} {idOf : α → String} {expected : String} {deadline : ℚ}
    {times : ℕ → ℚ} {recv : ℕ → Option α} {wts : ℤ} {k : ℕ} {b : ℤ} {m : α}
    (h : waitStep idOf expected deadline times recv wts k = .polled b (.ret m)) :
    recv k = some m ∧ idOf m = expected := by
  unfold waitStep at h
  by_cases hrem : deadline - times k ≤ 0
  · rw [if_pos hrem] at h
    simp at h
  · rw [if_neg hrem] at h
    cases hr : recv k with
    | none => simp only [hr] at h; simp at h
    | some m2 =>
      simp only [hr] at h
      rw [LoopStep.polled.injEq] at h
      obtain ⟨-, h2⟩ := h
      by_cases hid : idOf m2 = expected
      · rw [if_pos hid] at h2
        injection h2 with hm
        subst hm
        exact ⟨rfl, hid⟩
      · rw [if_neg hid] at h2
        simp at h2

/-- Any message body the wait loop returns carries the expected identifier. -/
theorem waitLoop_ret_id {α : Type} (idOf : α → String) (expected : String) (deadline : ℚ)
    (times : ℕ → ℚ) (recv : ℕ → Option α) (wts : ℤ) :
    ∀ fuel k m, waitLoop idOf expected deadline times recv wts k fuel = some (some m) →
      idOf m = expected := by
  intro fuel
  induction fuel with
  | zero => intro k m h; simp [waitLoop] at h
  | succ n ih =>
    intro k m h
    simp only [waitLoop] at h
    cases hs : waitStep idOf expected deadline times recv wts k with
    | timedOut => simp only [hs] at h; simp at h
    | polled b o =>
      cases o with
      | empty => simp only [hs] at h; exact ih (k + 1) m h
      | nack v m2 => simp only [hs] at h; exact ih (k + 1) m h
      | ret m2 =>
        simp only [hs] at h
        simp at h
        obtain rfl := h
        exact (waitStep_ret hs).2

/-- If no matching message ever arrives, the loop returns the timeout value
`none` by the first iteration that opens at or after the deadline. -/
theorem waitLoop_timeout {α : Type} (idOf : α → String) (expected : String) (deadline : ℚ)
    (times : ℕ → ℚ) (recv : ℕ → Option α) (wts : ℤ)
    (hno : ∀ j m, recv j = some m → idOf m ≠ expected) :
    ∀ n k, deadline ≤ times (k + n) →
      waitLoop idOf expected deadline times recv wts k (n + 1) = some none := by
  intro n
  induction n with
  | zero =>
    intro k hk
    have hrem : deadline - times k ≤ 0 := sub_nonpos.mpr (by simpa using hk)
    have hstep : waitStep idOf expected deadline times recv wts k = .timedOut := by
      simp [waitStep, hrem]
    simp only [waitLoop, hstep]
  | succ n ih =>
    intro k hk
    simp only [waitLoop]
    cases hs : waitStep idOf expected deadline times recv wts k with
    | timedOut => rfl
    | polled b o =>
      cases o with
      | empty =>
        have hk2 : deadline ≤ times ((k + 1) + n) := by
          have : (k + 1) + n = k + (n + 1) := by omega
          rw [this]; exact hk
        exact ih (k + 1) hk2
      | nack v m =>
        have hk2 : deadline ≤ times ((k + 1) + n) := by
          have : (k + 1) + n = k + (n + 1) := by omega
          rw [this]; exact hk
        exact ih (k + 1) hk2
      | ret m =>
        obtain ⟨hr, hid⟩ := waitStep_ret hs
        exact absurd hid (hno k m hr)

/-! ## Claim theorems -/

/-- C1: any value returned before the deadline by `_wait_for_response` or
`_wait_for_eval_result` carries exactly the expected correlation identifier;
a message whose embedded identifier differs is never returned — the iteration
negative-acknowledges it with zero visibility delay and the loop continues
polling. -/
theorem wait_loops_only_return_matching :
    (∀ (request_id : String) (timeout_seconds : ℚ) (wait_time_seconds : ℤ)
        (nows : ℕ → ℚ) (recv : ℕ → Option AgentLoopResult) (fuel : ℕ)
        (m : AgentLoopResult),
        _wait_for_response request_id timeout_seconds wait_time_seconds nows recv fuel =
          some (some m) → m.request_id = request_id) ∧
    (∀ (sample_id : String) (timeout_seconds : ℚ) (wait_time_seconds : ℤ)
        (nows : ℕ → ℚ) (recv : ℕ → Option EvalResult) (fuel : ℕ) (m : EvalResult),
        _wait_for_eval_result sample_id timeout_seconds wait_time_seconds nows recv fuel =
          some (some m) → m.sample_id = sample_id) ∧
    (∀ (α : Type) (idOf : α → String) (expected : String) (deadline : ℚ)
        (times : ℕ → ℚ) (recv : ℕ → Option α) (wts : ℤ) (k : ℕ) (m : α),
        0 < deadline - times k → recv k = some m → idOf m ≠ expected →
        waitStep idOf expected deadline times recv wts k =
          .polled (wait_time wts (deadline - times k)) (.nack 0 m) ∧
        ∀ fuel, waitLoop idOf expected deadline times recv wts k (fuel + 1) =
          waitLoop idOf expected deadline times recv wts (k + 1) fuel) := by
  refine ⟨?_, ?_, ?_⟩
  · intro request_id timeout_seconds wait_time_seconds nows recv fuel m h
    exact waitLoop_ret_id _ _ _ _ _ _ fuel 0 m h
  · intro sample_id timeout_seconds wait_time_seconds nows recv fuel m h
    exact waitLoop_ret_id _ _ _ _ _ _ fuel 0 m h
  · intro α idOf expected deadline times recv wts k m hrem hr hid
    have hstep : waitStep idOf expected deadline times recv wts k =
        .polled (wait_time wts (deadline - times k)) (.nack 0 m) := by
      unfold waitStep
      rw [if_neg (not_le.mpr hrem)]
      simp only [hr]
      rw [if_neg hid]
    exact ⟨hstep, fun fuel => by simp only [waitLoop, hstep]⟩

/-- C1 witness: concrete instances of all three conjuncts — a matching reply
is returned with the expected identifier (for both loops), and a mismatched
reply produces a zero-visibility nack step. -/
theorem wait_loops_only_return_matching_witness :
    (AgentLoopResult.mk "a" none none).request_id = "a" ∧
    (EvalResult.mk "s" none (Score.mk 1 true "ok") 0 none).sample_id = "s" ∧
    waitStep (fun r : AgentLoopResult => r.request_id) "a" 10 (fun _ => 0)
        (fun _ => some (AgentLoopResult.mk "b" none none)) 5 0 =
      .polled (wait_time 5 (10 - 0)) (.nack 0 (AgentLoopResult.mk "b" none none)) := by
  refine ⟨?_, ?_, ?_⟩
  · exact wait_loops_only_return_matching.1 "a" 10 5 (fun _ => 0)
      (fun _ => some (AgentLoopResult.mk "a" none none)) 1 _
      (by norm_num [_wait_for_response, waitLoop, waitStep])
  · exact wait_loops_only_return_matching.2.1 "s" 10 5 (fun _ => 0)
      (fun _ => some (EvalResult.mk "s" none (Score.mk 1 true "ok") 0 none)) 1 _
      (by norm_num [_wait_for_eval_result, waitLoop, waitStep])
  · exact (wait_loops_only_return_matching.2.2 AgentLoopResult
      (fun r => r.request_id) "a" 10 (fun _ => 0)
      (fun _ => some (AgentLoopResult.mk "b" none none)) 5 0
      (AgentLoopResult.mk "b" none none)
      (by norm_num) rfl (by decide)).1

/-- C4 counterexample: with `wait_time_seconds = 5` and exact remaining time
1/2 (so a poll is issued, since 1/2 > 0), the blocking budget the code
computes is `min(5, max(0, int(1/2))) = 0`, while the claimed
`min(wait_time_seconds, remaining)` equals 1/2. -/
theorem wait_time_differs_from_spec_budget :
    0 < (1/2 : ℚ) ∧ (wait_time 5 (1/2) : ℚ) ≠ spec_blocking_budget 5 (1/2) := by
  refine ⟨by norm_num, ?_⟩
  have h1 : pyInt (1/2) = 0 := by
    unfold pyInt
    rw [if_pos (by norm_num)]
    rw [Int.floor_eq_zero_iff]
    constructor <;> norm_num
  have h2 : wait_time 5 (1/2) = 0 := by
    unfold wait_time
    rw [h1]
    rw [min_def, max_def]
    norm_num
  unfold spec_blocking_budget
  rw [h2]
  rw [min_def]
  norm_num

/-- C4 amended: in every iteration that issues a poll (remaining time
strictly positive), the blocking budget the loop passes to the receive call
equals `min(wait_time_seconds, ⌊remaining⌋)` — the remaining time truncated
to whole seconds — rather than the exact real-valued remaining. -/
theorem waitStep_budget_is_min_floor {α : Type} (idOf : α → String) (expected : String)
    (deadline : ℚ) (times : ℕ → ℚ) (recv : ℕ → Option α) (wts : ℤ) (k : ℕ)
    (h : 0 < deadline - times k) :
    wait_time wts (deadline - times k) = min wts ⌊deadline - times k⌋ ∧
    ∃ o, waitStep idOf expected deadline times recv wts k =
      .polled (min wts ⌊deadline - times k⌋) o := by
  have heq : wait_time wts (deadline - times k) = min wts ⌊deadline - times k⌋ := by
    unfold wait_time pyInt
    rw [if_pos h.le]
    rw [max_eq_right (Int.floor_nonneg.mpr h.le)]
  refine ⟨heq, (match recv k with
    | none => PollOutcome.empty
    | some m => if idOf m = expected then PollOutcome.ret m else PollOutcome.nack 0 m), ?_⟩
  unfold waitStep
  rw [if_neg (not_le.mpr h), heq]

/-- C4 witness: a concrete polling iteration with remaining time 3/2 and a
5-second per-poll budget passes budget `min(5, ⌊3/2⌋) = 1` to receive. -/
theorem waitStep_budget_is_min_floor_witness :
    wait_time 5 ((3 : ℚ)/2 - 0) = min 5 ⌊(3 : ℚ)/2 - 0⌋ := by
  exact (waitStep_budget_is_min_floor (fun r : AgentLoopResult => r.request_id) "a"
    ((3 : ℚ)/2) (fun _ => 0) (fun _ => none) 5 0 (by norm_num)).1

/-- C5: if no message with the expected request identifier ever arrives, then
as soon as some iteration opens at or after the deadline
`nows 0 + timeout_seconds`, `_wait_for_response` returns the timeout outcome
`None` within a bounded number of iterations (fuel `n + 1` suffices when
iteration `n` opens past the deadline) — it does not hang — and that `None`
outcome is distinct from every returned-message outcome. -/
theorem wait_for_response_times_out (request_id : String) (timeout_seconds : ℚ)
    (wait_time_seconds : ℤ) (nows : ℕ → ℚ) (recv : ℕ → Option AgentLoopResult)
    (n : ℕ)
    (hno : ∀ j m, recv j = some m → m.request_id ≠ request_id)
    (hclock : nows 0 + timeout_seconds ≤ nows (n + 1)) :
    _wait_for_response request_id timeout_seconds wait_time_seconds nows recv (n + 1) =
      some none ∧
    ∀ m : AgentLoopResult,
      (some none : Option (Option AgentLoopResult)) ≠ some (some m) := by
  refine ⟨?_, by simp⟩
  unfold _wait_for_response
  exact waitLoop_timeout _ _ _ _ _ _ hno n 0 (by simpa using hclock)

/-- C5 witness: with an always-empty reply channel, a clock advancing one
second per call and a one-second timeout, the loop returns `None` at its
first iteration. -/
theorem wait_for_response_times_out_witness :
    _wait_for_response "a" 1 5 (fun k => (k : ℚ)) (fun _ => none) 1 = some none := by
  exact (wait_for_response_times_out "a" 1 5 (fun k => (k : ℚ)) (fun _ => none) 0
    (fun j m h => by simp at h) (by norm_num)).1

/-- C2: for every environment in which `REDIS_URL` is absent or empty,
`load_redis_settings` returns no settings and a non-empty error string (the
embedding is a total function, so no exception is ever raised for missing
configuration). -/
theorem load_redis_settings_missing_url (resolve : String → String)
    (env : String → Option String)
    (h : env "REDIS_URL" = none ∨ env "REDIS_URL" = some "") :
    (load_redis_settings resolve env).settings = none ∧
    ∃ e, (load_redis_settings resolve env).error = some e ∧ e ≠ "" := by
  have hb : pyTruthy (env "REDIS_URL") = false := by
    rcases h with h | h <;> simp [pyTruthy, h]
  exact ⟨by simp [load_redis_settings, hb],
    "REDIS_URL environment variable is required",
    by simp [load_redis_settings, hb], by decide⟩

/-- C2 witness: the empty environment yields no settings and the non-empty
error string. -/
theorem load_redis_settings_missing_url_witness :
    (load_redis_settings (fun s => s) (fun _ => none)).settings = none := by
  exact (load_redis_settings_missing_url (fun s => s) (fun _ => none) (Or.inl rfl)).1

/-- C3: an environment containing only a non-empty `REDIS_URL` yields the
default queue names `trivia:requests` and `trivia:eval:requests`, `None` for
both optional directories, and no error. -/
theorem load_redis_settings_defaults (resolve : String → String)
    (env : String → Option String) (u : String)
    (hurl : env "REDIS_URL" = some u) (hu : u ≠ "")
    (h1 : env "TRIVIA_REQUESTS_QUEUE" = none)
    (h2 : env "TRIVIA_EVAL_REQUESTS_QUEUE" = none)
    (h3 : env "TRIVIA_DEBUG_BUNDLES_DIR" = none)
    (h4 : env "TRIVIA_PROMPT_OVERRIDES_DIR" = none) :
    (load_redis_settings resolve env).settings =
      some (RedisSettings.mk u "trivia:requests" "trivia:eval:requests" none none) ∧
    (load_redis_settings resolve env).error = none := by
  have hb : pyTruthy (env "REDIS_URL") = true := by simp [pyTruthy, hurl, hu]
  constructor <;>
    simp [load_redis_settings, hb, hurl, hu, h1, h2, h3, h4, pyTruthy]

/-- C3 witness: a concrete environment with only the broker URL set. -/
theorem load_redis_settings_defaults_witness :
    (load_redis_settings (fun s => s)
      (fun k => if k = "REDIS_URL" then some "redis://localhost:6379" else none)).settings =
      some (RedisSettings.mk "redis://localhost:6379" "trivia:requests"
        "trivia:eval:requests" none none) := by
  exact (load_redis_settings_defaults (fun s => s)
    (fun k => if k = "REDIS_URL" then some "redis://localhost:6379" else none)
    "redis://localhost:6379" (by decide) (by decide) (by decide) (by decide)
    (by decide) (by decide)).1

/-- C9: whenever `load_redis_settings` reports an error, it has performed no
filesystem side effect — the list of directories created is empty, even when
the directory variables are set (the URL check precedes every mkdir). -/
theorem load_redis_settings_error_no_mkdirs (resolve : String → String)
    (env : String → Option String)
    (h : (load_redis_settings resolve env).error ≠ none) :
    (load_redis_settings resolve env).mkdirs = [] := by
  by_cases hb : pyTruthy (env "REDIS_URL") = true
  · exact absurd (by simp [load_redis_settings, hb]) h
  · rw [Bool.not_eq_true] at hb
    simp [load_redis_settings, hb]

/-- C9 witness: an environment with a debug-bundles directory set but no
broker URL errors out without creating any directory. -/
theorem load_redis_settings_error_no_mkdirs_witness :
    (load_redis_settings (fun s => s)
      (fun k => if k = "TRIVIA_DEBUG_BUNDLES_DIR" then some "/tmp/bundles" else none)).mkdirs
      = [] := by
  exact load_redis_settings_error_no_mkdirs (fun s => s)
    (fun k => if k = "TRIVIA_DEBUG_BUNDLES_DIR" then some "/tmp/bundles" else none)
    (by decide)

/-- C6: the hint handler is a total (never-erring, deterministic) function;
its category mapping has exactly the four keys number, word, color, phrase,
and for every input it either returns found together with the fixed hint of a
key that case-insensitively substring-matches the input, or returns not-found
with an empty hint when no key matches. -/
theorem hint_lookup_spec :
    hints.map (fun kv => kv.1) = ["number", "word", "color", "phrase"] ∧
    ∀ category : String,
      (∃ kv, kv ∈ hints ∧
        listContainsSub (pyLower category).data kv.1.data = true ∧
        (_handle_hint_lookup category).1 = HintLookupResult.mk true kv.2) ∨
      ((_handle_hint_lookup category).1 = HintLookupResult.mk false "" ∧
        hints.all (fun kv => !(listContainsSub (pyLower category).data kv.1.data)) = true) := by
  refine ⟨rfl, ?_⟩
  intro category
  cases hf : hints.find? (fun kv => listContainsSub (pyLower category).data kv.1.data) with
  | some kv =>
    left
    refine ⟨kv, List.mem_of_find?_eq_some hf, ?_, by simp [_handle_hint_lookup, hf]⟩
    have hp := List.find?_some hf
    simpa using hp
  | none =>
    right
    refine ⟨by simp [_handle_hint_lookup, hf], ?_⟩
    rw [List.all_eq_true]
    intro kv hkv
    have := List.find?_eq_none.mp hf kv hkv
    simpa using this

/-- C7: whatever the outcome of the random source, the dice handler returns a
value between 1 and 6 inclusive. -/
theorem throw_dice_range (r : ℕ) :
    1 ≤ (_handle_throw_dice r).1.value ∧ (_handle_throw_dice r).1.value ≤ 6 := by
  have h6 : ((6 : ℤ) - 1 + 1).toNat = 6 := rfl
  unfold _handle_throw_dice pyRandint
  simp only [h6]
  constructor <;> simp <;> omega

/-- C8: the eval-with-wait branch of the dispatcher exits 0 exactly when a
result arrived (was not a timeout), carries no error, and has a passing
score; every other case exits 1; and the status line printed for a failed
score contains "FAILED". -/
theorem eval_exit_code_spec (res : Option EvalResult) :
    (eval_result_exit_code res = 0 ↔
      ∃ r, res = some r ∧ r.error = none ∧ r.score.passed = true) ∧
    (eval_result_exit_code res = 0 ∨ eval_result_exit_code res = 1) ∧
    (∀ r, res = some r → r.score.passed = false →
      ∃ a b, eval_status_line r = a ++ "FAILED" ++ b) := by
  refine ⟨?_, ?_, ?_⟩
  · cases res with
    | none => simp [eval_result_exit_code]
    | some r =>
      cases herr : r.error with
      | some e => simp [eval_result_exit_code, herr]
      | none =>
        cases hp : r.score.passed with
        | false => simp [eval_result_exit_code, herr, hp]
        | true => simp [eval_result_exit_code, herr, hp]
  · cases res with
    | none => simp [eval_result_exit_code]
    | some r =>
      cases herr : r.error with
      | some e => simp [eval_result_exit_code, herr]
      | none =>
        cases hp : r.score.passed with
        | false => simp [eval_result_exit_code, herr, hp]
        | true => simp [eval_result_exit_code, herr, hp]
  · intro r hres hp
    refine ⟨"Status: ", "", ?_⟩
    simp [eval_status_line, hp]

/-- C8 witness: a passing result exits 0; a failing result exits 1 and its
status line contains "FAILED". -/
theorem eval_exit_code_spec_witness :
    eval_result_exit_code
      (some (EvalResult.mk "s" none (Score.mk 1 true "ok") 5 none)) = 0 ∧
    (∃ a b, eval_status_line
      (EvalResult.mk "s" none (Score.mk (1/2) false "wrong") 5 none) =
        a ++ "FAILED" ++ b) := by
  constructor
  · exact (eval_exit_code_spec
      (some (EvalResult.mk "s" none (Score.mk 1 true "ok") 5 none))).1.mpr
      ⟨EvalResult.mk "s" none (Score.mk 1 true "ok") 5 none, rfl, rfl, rfl⟩
  · exact (eval_exit_code_spec
      (some (EvalResult.mk "s" none (Score.mk (1/2) false "wrong") 5 none))).2.2
      (EvalResult.mk "s" none (Score.mk (1/2) false "wrong") 5 none) rfl rfl

/-- C10: `trivia_evaluator` passes exactly when the expected string occurs
case-insensitively as a substring of the answer.  When it does, the combined
value is the average of 1 with a brevity score in 1, 0.7, 0.3, hence one of
1, 0.85, 0.65 — always at least 0.6, so the 0.6 threshold never fails a
correct answer.  When it does not, the response fails regardless of its
length. -/
theorem trivia_evaluator_passed_iff (output : TriviaResponse) (expected : String) :
    ((trivia_evaluator output expected).passed = true ↔
      ∃ s t, (pyLower output.answer).data = s ++ (pyLower expected).data ++ t) ∧
    (∀ s t, (pyLower output.answer).data = s ++ (pyLower expected).data ++ t →
      (6/10 : ℚ) ≤ (trivia_evaluator output expected).value ∧
      ((trivia_evaluator output expected).value = 1 ∨
       (trivia_evaluator output expected).value = 17/20 ∨
       (trivia_evaluator output expected).value = 13/20)) := by
  by_cases hc : pyContains (pyLower output.answer) (pyLower expected) = true
  · have hex : ∃ s t, (pyLower output.answer).data = s ++ (pyLower expected).data ++ t :=
      (listContainsSub_iff _ _).mp hc
    have hboth : (trivia_evaluator output expected).passed = true ∧
        ((trivia_evaluator output expected).value = 1 ∨
         (trivia_evaluator output expected).value = 17/20 ∨
         (trivia_evaluator output expected).value = 13/20) := by
      by_cases h20 : (pySplitWhitespace output.answer).length ≤ 20
      · constructor
        · norm_num [trivia_evaluator, hc, h20, Bool.and_eq_true, decide_eq_true_eq]
        · left
          norm_num [trivia_evaluator, hc, h20]
      · by_cases h50 : (pySplitWhitespace output.answer).length ≤ 50
        · constructor
          · norm_num [trivia_evaluator, hc, h20, h50, Bool.and_eq_true, decide_eq_true_eq]
          · right; left
            norm_num [trivia_evaluator, hc, h20, h50]
        · constructor
          · norm_num [trivia_evaluator, hc, h20, h50, Bool.and_eq_true, decide_eq_true_eq]
          · right; right
            norm_num [trivia_evaluator, hc, h20, h50]
    have hge : (6/10 : ℚ) ≤ (trivia_evaluator output expected).value := by
      rcases hboth.2 with h | h | h <;> rw [h] <;> norm_num
    exact ⟨iff_of_true hboth.1 hex, fun s t _ => ⟨hge, hboth.2⟩⟩
  · have hcf : pyContains (pyLower output.answer) (pyLower expected) = false := by
      simpa using hc
    have hcf2 : listContainsSub (pyLower output.answer).data (pyLower expected).data
        = false := hcf
    have hnex : ¬ ∃ s t, (pyLower output.answer).data = s ++ (pyLower expected).data ++ t := by
      intro hex
      exact absurd ((listContainsSub_iff _ _).mpr hex) (by simp [hcf2])
    have hpassed : (trivia_evaluator output expected).passed = false := by
      simp [trivia_evaluator, hcf]
    refine ⟨iff_of_false (by simp [hpassed]) hnex, ?_⟩
    intro s t hst
    exact absurd ((listContainsSub_iff _ _).mpr ⟨s, t, hst⟩) (by simp [hcf2])

/-- C10 witness: the canonical example answer containing the secret scores at
least 0.6 and passes. -/
theorem trivia_evaluator_passed_iff_witness :
    (6/10 : ℚ) ≤ (trivia_evaluator (TriviaResponse.mk "The secret number is 42!") "42").value := by
  exact ((trivia_evaluator_passed_iff (TriviaResponse.mk "The secret number is 42!") "42").2
    "the secret number is ".data "!".data (by decide)).1

end TriviaAgent
